import Mathlib

/-!
Shallow embedding of the availability core of the `server-name-picker`
repository: the ProxMox hostname service (HTTP endpoint
`POST /proxmox/check-hostname` and the `hostname-requests` Kafka handler)
and the phpIPAM service (`authenticateIpam`, `POST /ipam/check-ip`,
`POST /ipam/next-available` and the `ip-requests` Kafka handler).

Conventions of the embedding:
* JavaScript strings are Lean `String`s; `toLowerCase` is modelled by
  mapping `Char.toLower` (faithful on ASCII, where hostnames live).
* A JSON field that may be absent (`undefined`) is an `Option`; the JS
  falsiness test `if (!s)` on a string field is `jsString?`, which treats
  both `undefined` and `""` as absent.
* An upstream HTTP call made through an axios client configured with
  `validateStatus: (status) => status >= 200 && status < 300` is an
  `UpstreamReply`: `.ok data` is a 2xx reply, `.fail s` is a rejection
  carrying the offending status (non-2xx reply or transport failure).
* `parseInt` on the digit string captured by `(\d+)` is modelled exactly
  (no floating-point rounding).
* Timestamps (`new Date().toISOString()`) are passed in as a `now`
  parameter.
-/

/-- JS truthiness of an optional string field: `undefined` and `""` are
falsy, mirroring `if (!hostname)` / `if (prefix)` in the services. -/
def jsString? : Option String → Option String
  | none => none
  | some s => if s = "" then none else some s

/-- Models `String.prototype.toLowerCase` (ASCII-faithful). -/
def jsToLower (s : String) : String := ⟨s.data.map Char.toLower⟩

/-- Models `String.prototype.startsWith`: `jsStartsWith s pre` is true when
`pre` is a literal prefix of `s`. -/
def jsStartsWith (s pre : String) : Bool := pre.data.isPrefixOf s.data

/-- Result of one upstream HTTP call as the axios clients of the services
see it: `validateStatus` accepts only 200–299, so any other status (and any
transport failure) rejects and is caught by the surrounding handler. -/
inductive UpstreamReply (α : Type) where
  | ok (data : α)
  | fail (status : Nat)
deriving DecidableEq

/-- Value of a decimal digit string, as `parseInt` computes it on the
string captured by `(\d+)` (modelled exactly, without float rounding). -/
def digitsVal (cs : List Char) : Nat :=
  cs.foldl (fun acc c => 10 * acc + (c.toNat - 48)) 0

/-- Models `name.match(new RegExp("^" + prefix + "(\\d+)$", "i"))` followed
by `parseInt(match[1])`, for prefixes built from regex-literal characters
and the wildcard `.` (the only fragment the theorems below instantiate):
each prefix character must match the next name character — `.` matches any
character, every other character matches case-insensitively (flag `i`) —
and the remaining name characters must be one or more digits, whose value
is returned.  `none` models a failed match (the prefix is interpolated into
the pattern unescaped, exactly as the source does). -/
def regexSuffixNum : List Char → List Char → Option Nat
  | [], rest =>
      if rest ≠ [] ∧ rest.all Char.isDigit then some (digitsVal rest) else none
  | _ :: _, [] => none
  | p :: ps, c :: cs =>
      if p = '.' ∨ p.toLower = c.toLower then regexSuffixNum ps cs else none

/-- One step of the `maxNumber` accumulation loop of
`POST /proxmox/check-hostname` (part_003 lines 246–255): keep the larger of
the accumulator and the trailing number extracted from `name`, ignoring
names the injected regex does not match. -/
def maxStep (pre : String) (acc : Nat) (name : String) : Nat :=
  match regexSuffixNum pre.data name.data with
  | some n => if n > acc then n else acc
  | none => acc

/-- The `maxNumber` computed by `POST /proxmox/check-hostname` over a list
of names (the `forEach` with a mutable `maxNumber`, as a fold). -/
def maxNumber (pre : String) (names : List String) : Nat :=
  names.foldl (maxStep pre) 0

/-- The filter of part_003 lines 241–243: existing hostnames whose
lowercased name starts with the lowercased prefix. -/
def existingPrefixNames (pre : String) (vms : List String) : List String :=
  vms.filter (fun name => jsStartsWith (jsToLower name) (jsToLower pre))

/-- The suggestion list of part_003 lines 257–261: the three candidates
`prefix + (maxNumber + i)` for i = 1, 2, 3. -/
def suggestionsFor (pre : String) (vms : List String) : List String :=
  let m := maxNumber pre (existingPrefixNames pre vms)
  [pre ++ toString (m + 1), pre ++ toString (m + 2), pre ++ toString (m + 3)]

/-- Body of a 200 reply of `POST /proxmox/check-hostname`.  The endpoint
serializes only the keys it sets: `none` models an absent key. -/
structure CheckHostnameBody where
  available : Bool
  message : Option String := none
  suggestions : Option (List String) := none
deriving DecidableEq

/-- Outcome of one HTTP endpoint invocation: a 200 body, a 400
`Bad Request`, or a 500 `Internal Server Error` with the generic message
the service logs the real cause behind. -/
inductive HttpResult (α : Type) where
  | ok (body : α)
  | badRequest (message : String)
  | internalError (message : String)
deriving DecidableEq

/-- The `POST /proxmox/check-hostname` endpoint (part_003 lines 209–275):
400 when `hostname` is falsy; 500 when the upstream VM listing fails;
otherwise `available:false` with only a message when some VM name equals
the requested name case-insensitively, and `available:true` together with
a `suggestions` array (empty when `prefix` is falsy, otherwise the three
numbered candidates) when no VM name matches.  The upstream inventory is
passed in as the reply to `GET /cluster/resources?type=vm`, each VM
represented by its name — the only field the availability logic reads. -/
def checkHostname (upstream : UpstreamReply (List String))
    (hostname pre : Option String) : HttpResult CheckHostnameBody :=
  match jsString? hostname with
  | none => .badRequest "Hostname is required"
  | some h =>
    match upstream with
    | .fail _ => .internalError "Failed to check hostname"
    | .ok vms =>
      let normalizedHostname := jsToLower h
      if vms.any (fun name => jsToLower name == normalizedHostname) then
        .ok { available := false
              message := some ("Hostname \x27" ++ h ++ "\x27 is already in use") }
      else
        let suggestions :=
          match jsString? pre with
          | none => []
          | some p => suggestionsFor p vms
        .ok { available := true, suggestions := some suggestions }

/-- Payload of a `hostname-requests` message once `JSON.parse` succeeded;
every field the handler touches may be absent. -/
structure HostnameRequestMsg where
  requestId : Option String := none
  hostname : Option String := none
  prefixField : Option String := none
deriving DecidableEq

/-- An inbound Kafka message value: either text `JSON.parse` throws on, or
a parsed request payload. -/
inductive MsgValue (α : Type) where
  | malformed
  | parsed (req : α)

/-- Payload published to `hostname-responses` (part_003 lines 315–328).
The handler serializes exactly `requestId`, `hostname`, `available` and
`timestamp`; `suggestions` is carried as an `Option` so that payloads with
a `suggestions` key are expressible — the handler never sets it. -/
structure HostnameKafkaResponse where
  requestId : Option String
  hostname : Option String
  available : Bool
  suggestions : Option (List String) := none
  timestamp : String
deriving DecidableEq

/-- The `eachMessage` handler of the proxmox service (part_003 lines
300–335).  Any exception — unparsable JSON, a failed upstream listing, or
the `TypeError` thrown by `request.hostname.toLowerCase()` when `hostname`
is absent — is caught, logged and swallowed: `none` models the dropped
message with no response published.  On success the response is published
with the inbound message key and carries no suggestions. -/
def hostnameEachMessage (upstream : UpstreamReply (List String))
    (now : String) (key : Option String) (v : MsgValue HostnameRequestMsg) :
    Option (Option String × HostnameKafkaResponse) :=
  match v with
  | .malformed => none
  | .parsed req =>
    match upstream with
    | .fail _ => none
    | .ok vms =>
      match req.hostname with
      | none => none
      | some h =>
        let normalizedHostname := jsToLower h
        let ex := vms.any (fun name => jsToLower name == normalizedHostname)
        some (key,
          { requestId := req.requestId
            hostname := req.hostname
            available := !ex
            timestamp := now })

/-- Spec-side (section 4.3 of the design): the trailing integer of a name
literally of the form `<prefix><digits>`, compared character-for-character
(case-sensitively); `none` when the name is not of that form. -/
def csFormSuffix : List Char → List Char → Option Nat
  | [], rest =>
      if rest ≠ [] ∧ rest.all Char.isDigit then some (digitsVal rest) else none
  | _ :: _, [] => none
  | p :: ps, c :: cs =>
      if p = c then csFormSuffix ps cs else none

/-- Spec-side: maximal trailing integer over names literally of the form
`<prefix><digits>` (0 when there is none). -/
def csMaxSuffix (pre : String) (vms : List String) : Nat :=
  vms.foldl (fun acc name =>
    match csFormSuffix pre.data name.data with
    | some n => max acc n
    | none => acc) 0

/-- The metacharacters of JavaScript regular expressions (quantifier
braces, which JavaScript treats as literals when they do not form a valid
quantifier, omitted). -/
def regexMetachars : List Char :=
  ['\\', '^', '$', '.', '*', '+', '?', '(', ')', '[', ']', '|']

/-- Environment of the ipam service as far as `authenticateIpam` reads it:
the optional static `PHPIPAM_API_TOKEN`.  The username/password pair only
feeds the login request, whose outcome the upstream model carries. -/
structure IpamEnv where
  apiToken : Option String := none

/-- Behaviour of the phpIPAM upstream for the three calls the service
makes.  `search` and `firstFree` depend on the token header installed by
`authenticateIpam`, so a token the upstream no longer accepts can answer
with a 401 status. -/
structure IpamUpstream where
  login : UpstreamReply String
  search : String → String → UpstreamReply (Option (List String))
  firstFree : String → String → UpstreamReply String

/-- One upstream HTTP request issued by the ipam service; the embedded
functions return the list of requests they performed, in order, so that
retry behaviour is visible in the statements below. -/
inductive IpamCall where
  | loginCall
  | searchCall (token ip : String)
  | firstFreeCall (token subnetId : String)
deriving DecidableEq

/-- The `authenticateIpam` function (part_002 lines 79–117): return the
cached token if present; otherwise install the static environment token if
configured; otherwise POST the login request and cache its token.  Returns
the token now installed in the axios `token` header together with the
updated cache slot (`phpipam_token`), or the login failure; cache TTLs
(300 s default, 21000 s for a fetched token) play no role in the claims
and are not modelled. -/
def authenticateIpam (env : IpamEnv) (up : IpamUpstream)
    (cache : Option String) :
    Except Nat (String × Option String) × List IpamCall :=
  match cache with
  | some token => (.ok (token, some token), [])
  | none =>
    match env.apiToken with
    | some t => (.ok (t, some t), [])
    | none =>
      match up.login with
      | .ok token => (.ok (token, some token), [.loginCall])
      | .fail s => (.error s, [.loginCall])

/-- Body of a 200 reply of `POST /ipam/check-ip`; the `message` key is set
only in the unavailable branch. -/
structure CheckIpBody where
  available : Bool
  message : Option String := none
deriving DecidableEq

/-- The `POST /ipam/check-ip` endpoint (part_002 lines 249–294): 400 when
`subnetId` is falsy; authenticate; 400 when `ip` is falsy; search the
whole address inventory for `ip` and report `available:false` iff the
search returned a non-empty record list.  Any upstream rejection is caught
and surfaces as the generic 500.  The second component lists the upstream
requests performed. -/
def checkIp (env : IpamEnv) (up : IpamUpstream) (cache : Option String)
    (ip subnetId : Option String) : HttpResult CheckIpBody × List IpamCall :=
  match jsString? subnetId with
  | none => (.badRequest "Subnet ID is required", [])
  | some _ =>
    match authenticateIpam env up cache with
    | (.error _, tr) => (.internalError "Failed to check IP address availability", tr)
    | (.ok (token, _), tr) =>
      match jsString? ip with
      | none => (.badRequest "IP address is required", tr)
      | some theIp =>
        match up.search token theIp with
        | .fail _ =>
            (.internalError "Failed to check IP address availability",
             tr ++ [.searchCall token theIp])
        | .ok data =>
          let found := match data with
            | some l => decide (0 < l.length)
            | none => false
          if found then
            (.ok { available := false
                   message := some ("IP address " ++ theIp ++ " is already in use") },
             tr ++ [.searchCall token theIp])
          else
            (.ok { available := true }, tr ++ [.searchCall token theIp])

/-- Body of a 200 reply of `POST /ipam/next-available`. -/
structure NextAvailableBody where
  ip : String
  subnetId : String
deriving DecidableEq

/-- The `POST /ipam/next-available` endpoint (part_002 lines 301–332): 400
when `subnetId` is falsy; authenticate; ask upstream for the first free
address of the subnet and return it verbatim.  phpIPAM reports an
exhausted subnet with a non-2xx reply, which `validateStatus` turns into a
rejection, caught and answered with the generic 500 — the same reply every
other upstream failure receives. -/
def nextAvailable (env : IpamEnv) (up : IpamUpstream) (cache : Option String)
    (subnetId : Option String) : HttpResult NextAvailableBody × List IpamCall :=
  match jsString? subnetId with
  | none => (.badRequest "Subnet ID is required", [])
  | some sid =>
    match authenticateIpam env up cache with
    | (.error _, tr) => (.internalError "Failed to get next available IP address", tr)
    | (.ok (token, _), tr) =>
      match up.firstFree token sid with
      | .ok ip => (.ok { ip := ip, subnetId := sid }, tr ++ [.firstFreeCall token sid])
      | .fail _ =>
          (.internalError "Failed to get next available IP address",
           tr ++ [.firstFreeCall token sid])

/-- Payload of an `ip-requests` message once `JSON.parse` succeeded. -/
structure IpRequestMsg where
  requestId : Option String := none
  subnetId : Option String := none
  ip : Option String := none
deriving DecidableEq

/-- Payload published to `ip-responses` (part_002 lines 374–387).  The
handler serializes exactly `requestId`, `subnetId`, `ip` and `timestamp`;
`available` is carried as an `Option` so that payloads with an
`available` key are expressible — the handler never sets it. -/
structure IpKafkaResponse where
  requestId : Option String
  subnetId : Option String
  ip : String
  available : Option Bool := none
  timestamp : String
deriving DecidableEq

/-- The `eachMessage` handler of the ipam service (part_002 lines
357–394).  It performs no validation of `subnetId`: the template literal
`${request.subnetId}` renders an absent field as the string `"undefined"`,
which is what the upstream first-free call then receives.  Any exception —
unparsable JSON, authentication failure, upstream rejection — is caught
and swallowed (`none`: message dropped, nothing published).  On upstream
success a response is always published, keyed by the inbound message key,
regardless of which fields the request carried. -/
def ipEachMessage (env : IpamEnv) (up : IpamUpstream) (cache : Option String)
    (now : String) (key : Option String) (v : MsgValue IpRequestMsg) :
    Option (Option String × IpKafkaResponse) × List IpamCall :=
  match v with
  | .malformed => (none, [])
  | .parsed req =>
    match authenticateIpam env up cache with
    | (.error _, tr) => (none, tr)
    | (.ok (token, _), tr) =>
      let sid := req.subnetId.getD "undefined"
      match up.firstFree token sid with
      | .fail _ => (none, tr ++ [.firstFreeCall token sid])
      | .ok ip =>
          (some (key,
            { requestId := req.requestId
              subnetId := req.subnetId
              ip := ip
              timestamp := now }),
           tr ++ [.firstFreeCall token sid])

/-- Error kinds named by the design's taxonomy (spec section 7), used to
state which kind an embedded HTTP outcome exhibits. -/
inductive SpecErrorKind where
  | badRequestKind
  | unauthorizedKind
  | upstreamUnavailableKind
  | noCapacityKind
  | internalErrorKind
deriving DecidableEq

/-- Classifies an embedded HTTP outcome into the spec taxonomy.  The
services produce only 400 `Bad Request` and the generic 500
`Internal Server Error`; no outcome maps to `noCapacityKind`. -/
def classifyHttp {α : Type} : HttpResult α → Option SpecErrorKind
  | .ok _ => none
  | .badRequest _ => some .badRequestKind
  | .internalError _ => some .internalErrorKind

/-- Helper: `authenticateIpam` issues at most one upstream request, and
that request can only be the login call. -/
theorem authenticateIpam_trace (env : IpamEnv) (up : IpamUpstream)
    (cache : Option String) :
    (authenticateIpam env up cache).2 = [] ∨
    (authenticateIpam env up cache).2 = [IpamCall.loginCall] := by
  unfold authenticateIpam
  rcases cache with _ | tok
  · rcases henv : env.apiToken with _ | t
    · rcases up.login with tok | s <;> simp
    · simp [henv]
  · simp

/-- C2 (code evaluation at the failing input): for the taken hostname
`web5` with prefix `web` against an inventory `web1..web7`, the endpoint
answers `available:false` with only a message and no `suggestions` key —
not the three suggestions `web8`, `web9`, `web10` the claim requires
(those would be `some ["web8","web9","web10"]`, but the body carries
`none`).  Suggestions are computed only in the available branch. -/
theorem C2_code_eval :
    checkHostname (.ok ["web1", "web2", "web3", "web4", "web5", "web6", "web7"])
        (some "web5") (some "web") =
      .ok { available := false,
            message := some "Hostname \x27web5\x27 is already in use" } ∧
    (none : Option (List String)) ≠ some ["web8", "web9", "web10"] := by
  exact ⟨by decide, by decide⟩

/-- C3 (code evaluation at the failing input): for the available hostname
`db1` with prefix `web` against an inventory containing only `alpha`, the
endpoint answers `available:true` with the three suggestions
`web1, web2, web3` — not the empty sequence the claim requires. -/
theorem C3_code_eval :
    checkHostname (.ok ["alpha"]) (some "db1") (some "web") =
      .ok { available := true, suggestions := some ["web1", "web2", "web3"] } ∧
    some ["web1", "web2", "web3"] ≠ some ([] : List String) := by
  exact ⟨by decide, by decide⟩

/-- C4 counterexample: at the claim's own input — request
`{requestId:"r1", hostname:"web5", prefix:"web"}` against the inventory
`web1..web7` — the message handler publishes
`{requestId:"r1", hostname:"web5", available:false, timestamp}` with no
`suggestions` key at all, which differs from the response the claim
requires (the same payload with `suggestions:["web8","web9","web10"]`). -/
theorem C4_cex :
    hostnameEachMessage
        (.ok ["web1", "web2", "web3", "web4", "web5", "web6", "web7"])
        "2024-01-01T00:00:00.000Z" (some "k")
        (.parsed { requestId := some "r1", hostname := some "web5",
                   prefixField := some "web" }) =
      some (some "k",
        { requestId := some "r1", hostname := some "web5", available := false,
          timestamp := "2024-01-01T00:00:00.000Z" }) ∧
    ({ requestId := some "r1", hostname := some "web5", available := false,
       timestamp := "2024-01-01T00:00:00.000Z" } : HostnameKafkaResponse) ≠
      { requestId := some "r1", hostname := some "web5", available := false,
        suggestions := some ["web8", "web9", "web10"],
        timestamp := "2024-01-01T00:00:00.000Z" } := by
  exact ⟨by decide, by decide⟩

/-- C4 (amended): for every inventory state and every hostname-request
message whose hostname is present, the hostname message handler ignores
the request's prefix (the published outcome is the same for any two prefix
values), never computes suggestions, and publishes exactly
`{requestId, hostname, available, timestamp}` — the `suggestions` slot of
the payload is `none` (key absent); in particular, at the claim's input —
request `{requestId:"r1", hostname:"web5", prefix:"web"}` against the
inventory `web1..web7` — the response is `{requestId:"r1",
hostname:"web5", available:false, timestamp}` with no suggestions key. -/
theorem C4_amended :
    (∀ (vms : List String) (now : String) (key rid p1 p2 : Option String)
        (h : String),
      hostnameEachMessage (.ok vms) now key
          (.parsed { requestId := rid, hostname := some h, prefixField := p1 }) =
        hostnameEachMessage (.ok vms) now key
          (.parsed { requestId := rid, hostname := some h, prefixField := p2 })) ∧
    (∀ (vms : List String) (now : String) (key rid ppre : Option String)
        (h : String),
      hostnameEachMessage (.ok vms) now key
          (.parsed { requestId := rid, hostname := some h, prefixField := ppre }) =
        some (key,
          { requestId := rid
            hostname := some h
            available := !(vms.any (fun name => jsToLower name == jsToLower h))
            suggestions := none
            timestamp := now })) ∧
    (∀ (now : String) (key : Option String),
      hostnameEachMessage
          (.ok ["web1", "web2", "web3", "web4", "web5", "web6", "web7"])
          now key
          (.parsed { requestId := some "r1", hostname := some "web5",
                     prefixField := some "web" }) =
        some (key,
          { requestId := some "r1", hostname := some "web5", available := false,
            timestamp := now })) := by
  refine ⟨?_, ?_, ?_⟩
  · intro vms now key rid p1 p2 h
    rfl
  · intro vms now key rid ppre h
    rfl
  · intro now key
    rfl

/-- C6 counterexample: a malformed `ip-requests` message with no
`subnetId` is not dropped — the handler calls upstream with the literal
subnet id `"undefined"` and, when that call succeeds, publishes a
response. -/
theorem C6_cex :
    (ipEachMessage { apiToken := some "tok" }
        { login := .fail 500, search := fun _ _ => .fail 500,
          firstFree := fun _ _ => .ok "10.0.0.5" }
        none "T" (some "k") (.parsed { requestId := some "r1" })) =
      (some (some "k",
         { requestId := some "r1", subnetId := none, ip := "10.0.0.5",
           timestamp := "T" }),
       [.firstFreeCall "tok" "undefined"]) ∧
    (ipEachMessage { apiToken := some "tok" }
        { login := .fail 500, search := fun _ _ => .fail 500,
          firstFree := fun _ _ => .ok "10.0.0.5" }
        none "T" (some "k") (.parsed { requestId := some "r1" })).1 ≠ none := by
  exact ⟨by decide, by decide⟩

/-- C7 counterexample: an `ip-requests` message carrying both `subnetId`
and a specific `ip` that is allocated upstream (so the section 4.4
decision would be `available:false`) is answered with the first-free
address of the subnet and no `available` key at all: the bridge never
performs the checkIp decision. -/
theorem C7_cex :
    (ipEachMessage { apiToken := some "tok" }
        { login := .fail 500,
          search := fun _ i => if i = "10.0.0.3" then .ok (some ["10.0.0.3"]) else .ok none,
          firstFree := fun _ s => if s = "10" then .ok "10.0.0.7" else .fail 404 }
        none "T" (some "k")
        (.parsed { requestId := some "r1", subnetId := some "10",
                   ip := some "10.0.0.3" })).1 =
      some (some "k",
        { requestId := some "r1", subnetId := some "10", ip := "10.0.0.7",
          timestamp := "T" }) ∧
    (none : Option Bool) ≠ some false := by
  exact ⟨by decide, by decide⟩

/-- C8 counterexample: with a stale cached token that the upstream now
rejects with status 401, `check-ip` performs the failed call exactly once
and fails with the generic 500 — no re-authentication (no login call) and
no retry are performed, where the claim requires exactly one
re-authentication followed by one retry. -/
theorem C8_cex :
    checkIp { apiToken := none }
        { login := .fail 500, search := fun _ _ => .fail 401,
          firstFree := fun _ _ => .fail 500 }
        (some "stale") (some "10.0.0.3") (some "10") =
      (.internalError "Failed to check IP address availability",
       [.searchCall "stale" "10.0.0.3"]) ∧
    [IpamCall.searchCall "stale" "10.0.0.3"].count IpamCall.loginCall = 0 ∧
    [IpamCall.searchCall "stale" "10.0.0.3"].count
        (IpamCall.searchCall "stale" "10.0.0.3") = 1 := by
  exact ⟨by decide, by decide, by decide⟩

/-- C9 counterexample: when upstream reports subnet exhaustion (its
first-free call rejects, here with 404), `next-available` fails with the
generic 500 Internal Server Error — classified `internalErrorKind`, not a
distinct `noCapacityKind` — and the reply is identical to the one produced
by an unrelated upstream outage (503). -/
theorem C9_cex :
    (nextAvailable { apiToken := some "tok" }
        { login := .fail 500, search := fun _ _ => .fail 500,
          firstFree := fun _ _ => .fail 404 }
        none (some "10")).1 =
      .internalError "Failed to get next available IP address" ∧
    (nextAvailable { apiToken := some "tok" }
        { login := .fail 500, search := fun _ _ => .fail 500,
          firstFree := fun _ _ => .fail 503 }
        none (some "10")).1 =
      (nextAvailable { apiToken := some "tok" }
        { login := .fail 500, search := fun _ _ => .fail 500,
          firstFree := fun _ _ => .fail 404 }
        none (some "10")).1 ∧
    classifyHttp ((nextAvailable { apiToken := some "tok" }
        { login := .fail 500, search := fun _ _ => .fail 500,
          firstFree := fun _ _ => .fail 404 }
        none (some "10")).1) = some SpecErrorKind.internalErrorKind ∧
    SpecErrorKind.internalErrorKind ≠ SpecErrorKind.noCapacityKind := by
  exact ⟨by decide, by decide, by decide, by decide⟩

/-- C10: the prefix is interpolated unescaped into the pattern
`^<prefix>(\d+)$` (flag `i`), so there are a prefix containing a regex
metacharacter (the claim's own example `web.`), a host list and a checked
hostname for which a hostname that does not literally — character for
character — begin with the prefix (here `WEB.5`) determines the maximal
suffix N, and the returned suggestions differ from
`prefix+(M+1), prefix+(M+2), prefix+(M+3)` where M is the maximum over
names literally of the form `<prefix><digits>` (here M = 0). -/
theorem C10_injected_regex :
    ∃ (p h w : String) (vms : List String),
      p.data.any (fun c => regexMetachars.contains c) = true ∧
      w ∈ vms ∧
      p.data.isPrefixOf w.data = false ∧
      regexSuffixNum p.data w.data =
        some (maxNumber p (existingPrefixNames p vms)) ∧
      maxNumber p (existingPrefixNames p vms) ≠ 0 ∧
      checkHostname (.ok vms) (some h) (some p) =
        .ok { available := true, suggestions := some (suggestionsFor p vms) } ∧
      suggestionsFor p vms ≠
        [p ++ toString (csMaxSuffix p vms + 1),
         p ++ toString (csMaxSuffix p vms + 2),
         p ++ toString (csMaxSuffix p vms + 3)] := by
  refine ⟨"web.", "db1", "WEB.5", ["WEB.5"], ?_, ?_, ?_, ?_, ?_, ?_, ?_⟩ <;> decide

/-- C5: whenever either message handler publishes a response, the response
is keyed by the inbound message key and carries the request's `requestId`
verbatim (absent in the request ⇒ absent in the response). -/
theorem C5_correlation :
    (∀ (up : UpstreamReply (List String)) (now : String) (key k : Option String)
        (req : HostnameRequestMsg) (resp : HostnameKafkaResponse),
      hostnameEachMessage up now key (.parsed req) = some (k, resp) →
      k = key ∧ resp.requestId = req.requestId) ∧
    (∀ (env : IpamEnv) (up : IpamUpstream) (cache : Option String) (now : String)
        (key k : Option String) (req : IpRequestMsg) (resp : IpKafkaResponse),
      (ipEachMessage env up cache now key (.parsed req)).1 = some (k, resp) →
      k = key ∧ resp.requestId = req.requestId) := by
  constructor
  · intro up now key k req resp hpub
    unfold hostnameEachMessage at hpub
    rcases up with vms | s
    · obtain ⟨rid, hn, pf⟩ := req
      rcases hn with _ | h0
      · simp at hpub
      · simp only [Option.some.injEq, Prod.mk.injEq] at hpub
        obtain ⟨hk, hr⟩ := hpub
        subst hk
        subst hr
        exact ⟨rfl, rfl⟩
    · simp at hpub
  · intro env up cache now key k req resp hpub
    unfold ipEachMessage at hpub
    rcases hau : authenticateIpam env up cache with ⟨r, tr⟩
    rw [hau] at hpub
    rcases r with s | ⟨token, c2⟩
    · simp at hpub
    · dsimp only at hpub
      rcases hff : up.firstFree token (req.subnetId.getD "undefined") with ip | s
      · rw [hff] at hpub
        simp only [Option.some.injEq, Prod.mk.injEq] at hpub
        obtain ⟨hk, hr⟩ := hpub
        subst hk
        subst hr
        exact ⟨rfl, rfl⟩
      · rw [hff] at hpub
        simp at hpub

/-- C5 witness: a concrete hostname request published with key `K` and
requestId `r`; the handler echoes both. -/
theorem C5_witness :
    hostnameEachMessage (.ok ["alpha"]) "T" (some "K")
        (.parsed { requestId := some "r", hostname := some "h",
                   prefixField := none }) =
      some (some "K",
        { requestId := some "r", hostname := some "h", available := true,
          timestamp := "T" }) ∧
    ((some "K" : Option String) = some "K" ∧
      (some "r" : Option String) = some "r") := by
  have e :
      hostnameEachMessage (.ok ["alpha"]) "T" (some "K")
          (.parsed { requestId := some "r", hostname := some "h",
                     prefixField := none }) =
        some (some "K",
          { requestId := some "r", hostname := some "h", available := true,
            timestamp := "T" }) := by decide
  exact ⟨e, C5_correlation.1 (.ok ["alpha"]) "T" (some "K") (some "K") _ _ e⟩

/-- C6 (amended): on the hostname path, a request without a hostname, an
unparsable message, and any upstream listing failure are all dropped with
no response; on the IP path, an unparsable message, an authentication
failure and an upstream first-free failure are dropped with no response —
but a missing `subnetId` is not itself validated: the upstream call is
made with the literal subnet id `"undefined"`, and a response is published
whenever that call succeeds (see the counterexample). -/
theorem C6_amended :
    (∀ (up : UpstreamReply (List String)) (now : String)
        (key rid ppre : Option String),
      hostnameEachMessage up now key
        (.parsed { requestId := rid, hostname := none, prefixField := ppre }) =
        none) ∧
    (∀ (s : Nat) (now : String) (key : Option String)
        (v : MsgValue HostnameRequestMsg),
      hostnameEachMessage (.fail s) now key v = none) ∧
    (∀ (up : UpstreamReply (List String)) (now : String) (key : Option String),
      hostnameEachMessage up now key .malformed = none) ∧
    (∀ (env : IpamEnv) (up : IpamUpstream) (cache : Option String)
        (now : String) (key : Option String),
      (ipEachMessage env up cache now key .malformed).1 = none) ∧
    (∀ (env : IpamEnv) (up : IpamUpstream) (cache : Option String)
        (now : String) (key : Option String) (req : IpRequestMsg) (s : Nat)
        (tr : List IpamCall),
      authenticateIpam env up cache = (.error s, tr) →
      (ipEachMessage env up cache now key (.parsed req)).1 = none) ∧
    (∀ (env : IpamEnv) (up : IpamUpstream) (cache : Option String)
        (now : String) (key : Option String) (req : IpRequestMsg)
        (token : String) (c2 : Option String) (tr : List IpamCall) (s : Nat),
      authenticateIpam env up cache = (.ok (token, c2), tr) →
      up.firstFree token (req.subnetId.getD "undefined") = .fail s →
      (ipEachMessage env up cache now key (.parsed req)).1 = none) := by
  refine ⟨?_, ?_, ?_, ?_, ?_, ?_⟩
  · intro up now key rid ppre
    rcases up with vms | s <;> rfl
  · intro s now key v
    rcases v with _ | req <;> rfl
  · intro up now key
    rfl
  · intro env up cache now key
    rfl
  · intro env up cache now key req s tr hau
    unfold ipEachMessage
    rw [hau]
  · intro env up cache now key req token c2 tr s hau hff
    unfold ipEachMessage
    rw [hau]
    dsimp only
    rw [hff]

/-- C6 witness: a malformed ip request (no `subnetId`) whose upstream
first-free call — made with the literal subnet id `"undefined"` — fails,
is dropped with no response. -/
theorem C6_witness :
    authenticateIpam { apiToken := some "tok" }
        { login := .fail 500, search := fun _ _ => .fail 500,
          firstFree := fun _ _ => .fail 404 } none =
      (.ok ("tok", some "tok"), []) ∧
    IpamUpstream.firstFree
        { login := .fail 500, search := fun _ _ => .fail 500,
          firstFree := fun _ _ => .fail 404 } "tok" "undefined" = .fail 404 ∧
    (ipEachMessage { apiToken := some "tok" }
        { login := .fail 500, search := fun _ _ => .fail 500,
          firstFree := fun _ _ => .fail 404 }
        none "T" (some "k") (.parsed { requestId := some "r1" })).1 = none := by
  refine ⟨rfl, rfl, ?_⟩
  exact C6_amended.2.2.2.2.2 { apiToken := some "tok" }
    { login := .fail 500, search := fun _ _ => .fail 500,
      firstFree := fun _ _ => .fail 404 }
    none "T" (some "k") { requestId := some "r1" } "tok" (some "tok") [] 404
    rfl rfl

/-- C7 (amended): the ip-request message handler never performs the
checkIp decision: it ignores the request's `ip` field entirely (the
published outcome is the same for any two values of `ip`), always asks
upstream for the first free address of `subnetId` (rendered `"undefined"`
when absent), and on success publishes
`{requestId, subnetId, ip: first-free, timestamp}` with no availability
field. -/
theorem C7_amended :
    (∀ (env : IpamEnv) (up : IpamUpstream) (cache : Option String)
        (now : String) (key rid sid ip1 ip2 : Option String),
      ipEachMessage env up cache now key
          (.parsed { requestId := rid, subnetId := sid, ip := ip1 }) =
        ipEachMessage env up cache now key
          (.parsed { requestId := rid, subnetId := sid, ip := ip2 })) ∧
    (∀ (env : IpamEnv) (up : IpamUpstream) (cache : Option String)
        (now : String) (key : Option String) (req : IpRequestMsg)
        (token : String) (c2 : Option String) (tr : List IpamCall)
        (ip : String),
      authenticateIpam env up cache = (.ok (token, c2), tr) →
      up.firstFree token (req.subnetId.getD "undefined") = .ok ip →
      (ipEachMessage env up cache now key (.parsed req)).1 =
        some (key,
          { requestId := req.requestId, subnetId := req.subnetId, ip := ip,
            timestamp := now })) := by
  constructor
  · intro env up cache now key rid sid ip1 ip2
    rfl
  · intro env up cache now key req token c2 tr ip hau hff
    unfold ipEachMessage
    rw [hau]
    dsimp only
    rw [hff]

/-- C7 witness: the counterexample's configuration — requested ip
`10.0.0.3` is allocated upstream, yet the handler publishes the first free
address `10.0.0.7` of subnet `10` with no availability field. -/
theorem C7_witness :
    authenticateIpam { apiToken := some "tok" }
        { login := .fail 500,
          search := fun _ i => if i = "10.0.0.3" then .ok (some ["10.0.0.3"]) else .ok none,
          firstFree := fun _ s => if s = "10" then .ok "10.0.0.7" else .fail 404 }
        none =
      (.ok ("tok", some "tok"), []) ∧
    IpamUpstream.firstFree
        { login := .fail 500,
          search := fun _ i => if i = "10.0.0.3" then .ok (some ["10.0.0.3"]) else .ok none,
          firstFree := fun _ s => if s = "10" then .ok "10.0.0.7" else .fail 404 }
        "tok" "10" = .ok "10.0.0.7" ∧
    (ipEachMessage { apiToken := some "tok" }
        { login := .fail 500,
          search := fun _ i => if i = "10.0.0.3" then .ok (some ["10.0.0.3"]) else .ok none,
          firstFree := fun _ s => if s = "10" then .ok "10.0.0.7" else .fail 404 }
        none "T" (some "k")
        (.parsed { requestId := some "r1", subnetId := some "10",
                   ip := some "10.0.0.3" })).1 =
      some (some "k",
        { requestId := some "r1", subnetId := some "10", ip := "10.0.0.7",
          timestamp := "T" }) := by
  refine ⟨rfl, by decide, ?_⟩
  exact C7_amended.2 { apiToken := some "tok" }
    { login := .fail 500,
      search := fun _ i => if i = "10.0.0.3" then .ok (some ["10.0.0.3"]) else .ok none,
      firstFree := fun _ s => if s = "10" then .ok "10.0.0.7" else .fail 404 }
    none "T" (some "k")
    { requestId := some "r1", subnetId := some "10", ip := some "10.0.0.3" }
    "tok" (some "tok") [] "10.0.0.7" rfl (by decide)

/-- C8 (amended): a 401-class upstream reply to the address-search call
does not trigger any re-authentication or retry: `check-ip` fails with the
generic 500, the failed call was performed exactly once (it is the last
upstream request of the trace), and the only other request the trace can
contain is the single lazy login performed before the first attempt —
never after the 401. -/
theorem C8_amended :
    ∀ (env : IpamEnv) (up : IpamUpstream) (cache : Option String)
      (ip sid : Option String) (s0 theIp token : String)
      (c2 : Option String) (tr : List IpamCall),
      jsString? sid = some s0 →
      jsString? ip = some theIp →
      authenticateIpam env up cache = (.ok (token, c2), tr) →
      up.search token theIp = .fail 401 →
      checkIp env up cache ip sid =
        (.internalError "Failed to check IP address availability",
         tr ++ [.searchCall token theIp]) ∧
      (tr = [] ∨ tr = [IpamCall.loginCall]) := by
  intro env up cache ip sid s0 theIp token c2 tr hsid hip hau hsearch
  constructor
  · unfold checkIp
    rw [hsid, hau]
    dsimp only
    rw [hip]
    dsimp only
    rw [hsearch]
  · have htr := authenticateIpam_trace env up cache
    rw [hau] at htr
    exact htr

/-- C8 witness: the counterexample's configuration, passed through the
amended theorem — stale cached token, upstream answers 401, result is the
generic 500 with a single search call and no login call in the trace. -/
theorem C8_witness :
    jsString? (some "10") = some "10" ∧
    jsString? (some "10.0.0.3") = some "10.0.0.3" ∧
    authenticateIpam { apiToken := none }
        { login := .fail 500, search := fun _ _ => .fail 401,
          firstFree := fun _ _ => .fail 500 } (some "stale") =
      (.ok ("stale", some "stale"), []) ∧
    (checkIp { apiToken := none }
        { login := .fail 500, search := fun _ _ => .fail 401,
          firstFree := fun _ _ => .fail 500 }
        (some "stale") (some "10.0.0.3") (some "10") =
      (.internalError "Failed to check IP address availability",
       [] ++ [.searchCall "stale" "10.0.0.3"]) ∧
     (([] : List IpamCall) = [] ∨ ([] : List IpamCall) = [IpamCall.loginCall])) := by
  refine ⟨rfl, rfl, rfl, ?_⟩
  exact C8_amended { apiToken := none }
    { login := .fail 500, search := fun _ _ => .fail 401,
      firstFree := fun _ _ => .fail 500 }
    (some "stale") (some "10.0.0.3") (some "10") "10" "10.0.0.3" "stale"
    (some "stale") [] rfl rfl rfl rfl

/-- C9 (amended): when the upstream first-free call fails — in particular
when upstream reports subnet exhaustion with a non-2xx reply — the
`next-available` endpoint fails with the generic 500 Internal Server
Error; no distinct NoCapacity kind exists, so exhaustion is classified
`internalErrorKind`, indistinguishable from any other upstream failure. -/
theorem C9_amended :
    ∀ (env : IpamEnv) (up : IpamUpstream) (cache : Option String)
      (sid : Option String) (s0 token : String) (c2 : Option String)
      (tr : List IpamCall) (st : Nat),
      jsString? sid = some s0 →
      authenticateIpam env up cache = (.ok (token, c2), tr) →
      up.firstFree token s0 = .fail st →
      (nextAvailable env up cache sid).1 =
        .internalError "Failed to get next available IP address" ∧
      classifyHttp ((nextAvailable env up cache sid).1) =
        some SpecErrorKind.internalErrorKind := by
  intro env up cache sid s0 token c2 tr st hsid hau hff
  have e : (nextAvailable env up cache sid).1 =
      .internalError "Failed to get next available IP address" := by
    unfold nextAvailable
    rw [hsid, hau]
    dsimp only
    rw [hff]
  refine ⟨e, ?_⟩
  rw [e]
  rfl

/-- C9 witness: exhausted subnet 10 (upstream rejects first-free with
404), endpoint answers the generic 500, classified internalErrorKind. -/
theorem C9_witness :
    jsString? (some "10") = some "10" ∧
    authenticateIpam { apiToken := some "tok" }
        { login := .fail 500, search := fun _ _ => .fail 500,
          firstFree := fun _ _ => .fail 404 } none =
      (.ok ("tok", some "tok"), []) ∧
    ((nextAvailable { apiToken := some "tok" }
        { login := .fail 500, search := fun _ _ => .fail 500,
          firstFree := fun _ _ => .fail 404 }
        none (some "10")).1 =
      .internalError "Failed to get next available IP address" ∧
     classifyHttp ((nextAvailable { apiToken := some "tok" }
        { login := .fail 500, search := fun _ _ => .fail 500,
          firstFree := fun _ _ => .fail 404 }
        none (some "10")).1) = some SpecErrorKind.internalErrorKind) := by
  refine ⟨rfl, rfl, ?_⟩
  exact C9_amended { apiToken := some "tok" }
    { login := .fail 500, search := fun _ _ => .fail 500,
      firstFree := fun _ _ => .fail 404 }
    none (some "10") "10" "tok" (some "tok") [] 404 rfl rfl rfl
